import Mathlib

/-!
# Verification of the Mesa-Laboratories agent-based models

Shallow embedding of the three simulation variants of the repository:

* `HW`  — `homework/` : infectious-disease spread model
  (`PersonAgent`, `InfectiousDiseaseSpreadModel`);
* `L2`  — `laboratory_2/` : trend spread model on the experimental cell space
  (`PersonAgent`, `InfluencerAgent`, `TrendSpreadModel`);
* `L1`  — `laboratory1/` : earlier trend spread model on `MultiGrid`.

Python floats that are used only as probabilities are embedded as rationals
(`ℚ`); the shared pseudo-random stream is embedded as an oracle of explicit
draw values indexed by the (phase, agent) position at which the source draws
them; the external grid collaborator is embedded as a neighbourhood function
`Nat → List Nat` over cell indices, and `select_random_cell` takes the raw
random index chosen by the framework.  Operations that call
`check_grid_initialization` (and hence can raise `ValueError`) return
`Except String`.
-/

namespace MesaLabs

/-- The error message raised by `check_grid_initialization` in every variant:
`ValueError(f'The grid has not been initialized: {error_msg}')`. -/
def gridError (error_msg : String) : String :=
  "The grid has not been initialized: " ++ error_msg

/-- `neighborhood.select_random_cell()` of the external grid: pick an element
of the neighbourhood list from the framework's random index `r`; the fallback
(the current cell) is only for the vacuous empty-neighbourhood case, which the
torus grids of the repository never produce. -/
def select_random_cell (cells : List Nat) (r : Nat) (fallback : Nat) : Nat :=
  cells.getD (r % cells.length) fallback

/-- Sequentially run an index-dependent fallible action over a list of
indices, threading the state; embeds the `AgentSet.do` loops, which stop at
(and propagate) the first raised exception. -/
def iterM {σ : Type} (f : Nat → σ → Except String σ) : List Nat → σ → Except String σ
  | [], s => Except.ok s
  | i :: is, s =>
    match f i s with
    | Except.error e => Except.error e
    | Except.ok s' => iterM f is s'

namespace HW

/-- `homework/agents.py` `PersonAgent`: the private attributes `_is_infected`,
`_has_comorbidities`, `_moving_probability`, and the `cell` reference of
`Grid2DMovingAgent` (`none` until the model places the agent). -/
structure PersonAgent where
  is_infected : Bool
  has_comorbidities : Bool
  moving_probability : ℚ
  cell : Option Nat
  deriving Repr, DecidableEq

/-- `homework/model.py`: the per-cell property bag
`{'is_infected': …, 'virus_persistence': …}`. -/
structure Cell where
  is_infected : Bool
  virus_persistence : Nat
  deriving Repr, DecidableEq

/-- The value computed by `PersonAgent._get_infection_probabilty` once its
grid check has passed: a trait-based contribution (`0.25` with comorbidities,
else `0.0`) plus a location-based contribution (`+0.5` on an infected cell,
else `+0.25` next to one, else the function returns `0.0` outright). -/
def infection_probability_core (has_comorbidities cellInfected nbrInfected : Bool) : ℚ :=
  let infection_probability : ℚ := if has_comorbidities then 1/4 else 0
  if cellInfected then infection_probability + 1/2
  else if nbrInfected then infection_probability + 1/4
  else 0

/-- `PersonAgent._in_neighbourhood_of_infection`: grid check, then `any` over
the neighbourhood's cells. -/
def in_neighbourhood_of_infection (a : PersonAgent) (neighborCells : List Cell) :
    Except String Bool :=
  match a.cell with
  | none => Except.error
      (gridError "The agent cannot check if neighbouring cells are infected")
  | some _ => Except.ok (neighborCells.any (fun c => c.is_infected))

/-- `PersonAgent._get_infection_probabilty`: grid check, then the pure
computation `infection_probability_core`. -/
def get_infection_probabilty (a : PersonAgent) (cellInfected nbrInfected : Bool) :
    Except String ℚ :=
  match a.cell with
  | none => Except.error (gridError "The agent cannot get infection probability")
  | some _ =>
      Except.ok (infection_probability_core a.has_comorbidities cellInfected nbrInfected)

/-- `PersonAgent.move_around`: grid check; with probability
`_moving_probability` move to a random neighbouring cell, otherwise do
nothing.  `draw` is the `self.random.random()` value, `r` the framework's
choice inside `select_random_cell`. -/
def move_around (a : PersonAgent) (nbrs : Nat → List Nat) (draw : ℚ) (r : Nat) :
    Except String PersonAgent :=
  match a.cell with
  | none => Except.error (gridError "The agent cannot move around the grid.")
  | some c =>
    if draw < a.moving_probability then
      Except.ok { a with cell := some (select_random_cell (nbrs c) r c) }
    else
      Except.ok a

/-- The per-target body of `PersonAgent.spread_virus`: transmission
probability `0.75` for a target with comorbidities, `0.5` otherwise; an
uninfected target becomes infected when the draw is below it.  The returned
Boolean records whether `_get_infected(is_direct=True)` fired (the caller
then increments `model.direct_infections`). -/
def spread_virus_target (draw : ℚ) (target : PersonAgent) : PersonAgent × Bool :=
  let infection_probability : ℚ := if target.has_comorbidities then 3/4 else 1/2
  if !target.is_infected && decide (draw < infection_probability) then
    ({ target with is_infected := true }, true)
  else
    (target, false)

/-- `PersonAgent.get_infected_from_cell`: grid check; an uninfected agent
whose draw falls below `_get_infection_probabilty()` becomes infected.  The
Boolean records whether `_get_infected(is_direct=False)` fired (the caller
then increments `model.location_infections`).  The inner grid checks of
`_get_infection_probabilty` cannot fire on this path because the outer check
has already passed, so the pure core is used directly. -/
def get_infected_from_cell (a : PersonAgent) (cellInfected nbrInfected : Bool)
    (draw : ℚ) : Except String (PersonAgent × Bool) :=
  match a.cell with
  | none => Except.error (gridError "The agent cannot get infected from the cell.")
  | some _ =>
    if !a.is_infected &&
        decide (draw < infection_probability_core a.has_comorbidities cellInfected nbrInfected) then
      Except.ok ({ a with is_infected := true }, true)
    else
      Except.ok (a, false)

/-- The per-cell block of `InfectiousDiseaseSpreadModel.step`: on an infected
cell, reset `virus_persistence` to `0` if an infected agent occupies the cell,
otherwise increment it; afterwards, if `virus_persistence > 2`, clear the
cell's infection flag and reset the counter.  Uninfected cells are untouched. -/
def decay_cell (cell : Cell) (infectedAgentPresent : Bool) : Cell :=
  if cell.is_infected then
    let cell' :=
      if infectedAgentPresent then { cell with virus_persistence := 0 }
      else { cell with virus_persistence := cell.virus_persistence + 1 }
    if cell'.virus_persistence > 2 then
      { is_infected := false, virus_persistence := 0 }
    else cell'
  else cell

/-- One random stream of `InfectiousDiseaseSpreadModel`, indexed by the
(phase, agent) position at which the source draws. -/
structure Oracle where
  moveDraw : Nat → ℚ
  moveChoice : Nat → Nat
  spreadDraw : Nat → Nat → ℚ
  cellDraw : Nat → ℚ

/-- `InfectiousDiseaseSpreadModel`: the agent population, the per-cell
property bags (indexed by cell id), the external grid's 4-neighbourhood
function, the two model counters and Mesa's `running` flag. -/
structure Model where
  agents : List PersonAgent
  cells : List Cell
  nbrs : Nat → List Nat
  direct_infections : Nat
  location_infections : Nat
  running : Bool

/-- `len(self._agents_by_type[PersonAgent].select(lambda agent: not agent.is_infected))`. -/
def countUninfected (s : Model) : Nat :=
  (s.agents.filter (fun a => !a.is_infected)).length

/-- `self.cells.get? c`, defaulting the infection flag to `False`. -/
def cellInfectedAt (s : Model) (c : Nat) : Bool :=
  ((s.cells.get? c).map (fun cl => cl.is_infected)).getD false

/-- One iteration of `self._agents_by_type[PersonAgent].do('move_around')`. -/
def moveStep (o : Oracle) (i : Nat) (s : Model) : Except String Model :=
  match s.agents.get? i with
  | none => Except.ok s
  | some a =>
    match move_around a s.nbrs (o.moveDraw i) (o.moveChoice i) with
    | Except.error e => Except.error e
    | Except.ok a' => Except.ok { s with agents := s.agents.set i a' }

/-- One iteration of `…​.do('spread_virus')`, for the source agent at index
`i`: grid check; if the source is infected, mark its cell infected and run
the per-target transmission over every other agent in the same cell,
incrementing `direct_infections` once per successful `_get_infected` call. -/
def spreadStep (o : Oracle) (i : Nat) (s : Model) : Except String Model :=
  match s.agents.get? i with
  | none => Except.ok s
  | some self =>
    match self.cell with
    | none => Except.error (gridError "The agent cannot spread the virus.")
    | some c =>
      if self.is_infected then
        let cells' :=
          match s.cells.get? c with
          | none => s.cells
          | some cl => s.cells.set c { cl with is_infected := true }
        let results := s.agents.enum.map (fun p =>
          if p.1 ≠ i ∧ p.2.cell = some c then
            spread_virus_target (o.spreadDraw i p.1) p.2
          else (p.2, false))
        Except.ok { s with
          cells := cells',
          agents := results.map (fun p => p.1),
          direct_infections :=
            s.direct_infections + (results.filter (fun p => p.2)).length }
      else Except.ok s

/-- One iteration of `…​.do('get_infected_from_cell')` for the agent at
index `i`, reading the cell and neighbourhood infection flags from the model
and incrementing `location_infections` on success. -/
def cellStep (o : Oracle) (i : Nat) (s : Model) : Except String Model :=
  match s.agents.get? i with
  | none => Except.ok s
  | some a =>
    let cellInf := (a.cell.map (fun c => cellInfectedAt s c)).getD false
    let nbrInf :=
      (a.cell.map (fun c => (s.nbrs c).any (fun d => cellInfectedAt s d))).getD false
    match get_infected_from_cell a cellInf nbrInf (o.cellDraw i) with
    | Except.error e => Except.error e
    | Except.ok (a', fired) =>
      Except.ok { s with
        agents := s.agents.set i a',
        location_infections := s.location_infections + (if fired then 1 else 0) }

/-- The environment decay loop at the end of
`InfectiousDiseaseSpreadModel.step`: apply `decay_cell` to every cell, the
occupancy test being `any(agent.is_infected for agent in cell.agents)`.
(The mirrored write into `infected_property_layer.data`, a visualization
buffer, is not part of the model state.) -/
def decayAll (s : Model) : Model :=
  { s with cells := s.cells.enum.map (fun p =>
      decay_cell p.2 (s.agents.any (fun a => decide (a.cell = some p.1) && a.is_infected))) }

/-- `InfectiousDiseaseSpreadModel.step`, wrapped by `_stop_condition`: if no
uninfected agent remains, set `running := False` and do nothing else;
otherwise run the tick body — data collection (external, read-only), the
move pass, the direct-transmission pass, the passive-acquisition pass, and
the environment decay loop. -/
def step (o : Oracle) (s : Model) : Except String Model :=
  if countUninfected s = 0 then
    Except.ok { s with running := false }
  else
    match iterM (moveStep o) (List.range s.agents.length) s with
    | Except.error e => Except.error e
    | Except.ok s1 =>
      match iterM (spreadStep o) (List.range s1.agents.length) s1 with
      | Except.error e => Except.error e
      | Except.ok s2 =>
        match iterM (cellStep o) (List.range s2.agents.length) s2 with
        | Except.error e => Except.error e
        | Except.ok s3 => Except.ok (decayAll s3)

/-- `InfectiousDiseaseSpreadModel.generate_person_agents` (before grid
placement): `infected_population_size` infected agents, then
`comorbidities_population_size` agents with comorbidities, then the remaining
`population_size - infected_population_size - comorbidities_population_size`
plain agents, all sharing `moving_probability`. -/
def generate_person_agents (population_size infected_population_size
    comorbidities_population_size : Nat) (moving_probability : ℚ) :
    List PersonAgent :=
  List.replicate infected_population_size
    { is_infected := true, has_comorbidities := false,
      moving_probability := moving_probability, cell := none } ++
  List.replicate comorbidities_population_size
    { is_infected := false, has_comorbidities := true,
      moving_probability := moving_probability, cell := none } ++
  List.replicate
    (population_size - infected_population_size - comorbidities_population_size)
    { is_infected := false, has_comorbidities := false,
      moving_probability := moving_probability, cell := none }

end HW

namespace L2

/-- `laboratory_2/agents.py` `PersonAgent`: trait flag, gossip counter,
knowledge flag, the two per-agent probabilities (`_gossip_prob`,
`_skepticism_prob`) and the `cell` reference of `Grid2DMovingAgent`. -/
structure PersonAgent where
  sport_enthusiast : Bool
  trend_gossip_counter : Nat
  knows_about_trend : Bool
  gossip_prob : ℚ
  skepticism_prob : ℚ
  cell : Option Nat
  deriving Repr, DecidableEq

/-- `laboratory_2/agents.py` `InfluencerAgent` (non-spatial). -/
structure InfluencerAgent where
  reached_followers_counter : Nat
  deriving Repr, DecidableEq

/-- The four interaction counters of `TrendSpreadModel`. -/
structure Counters where
  direct_interactions_count : Nat
  indirect_interactions_count : Nat
  successful_direct_interactions_count : Nat
  successful_indirect_interactions_count : Nat
  deriving Repr, DecidableEq

/-- `PersonAgent.learn_about_trend`: increment `trend_gossip_counter`; the
threshold is the literal `skepticism_prob = 0.2` (the read of the per-agent
`_skepticism_prob` is commented out in the source); when the draw is strictly
above it, set the knowledge flag and increment the direct or indirect success
counter of the model according to `is_direct`. -/
def learn_about_trend (a : PersonAgent) (is_direct : Bool) (draw : ℚ)
    (m : Counters) : PersonAgent × Counters :=
  let a' := { a with trend_gossip_counter := a.trend_gossip_counter + 1 }
  let skepticism_prob : ℚ := 1/5
  if draw > skepticism_prob then
    ({ a' with knows_about_trend := true },
     if is_direct then
       { m with successful_direct_interactions_count :=
           m.successful_direct_interactions_count + 1 }
     else
       { m with successful_indirect_interactions_count :=
           m.successful_indirect_interactions_count + 1 })
  else (a', m)

/-- `laboratory_2` `PersonAgent.move_around`: grid check, then move to a
random neighbouring cell unconditionally — no probability draw gates the
relocation in this variant. -/
def move_around (a : PersonAgent) (nbrs : Nat → List Nat) (r : Nat) :
    Except String PersonAgent :=
  match a.cell with
  | none => Except.error (gridError "The agent cannot move around the grid.")
  | some c => Except.ok { a with cell := some (select_random_cell (nbrs c) r c) }

/-- The per-target body of `PersonAgent.spread_news`: a target that does not
yet know the trend is addressed when it is a sport enthusiast or when the
gate draw is below the source's `_gossip_prob`; being addressed increments
`direct_interactions_count` and then runs `learn_about_trend` (which decides
adoption by its own skepticism draw). -/
def spread_news_target (gossip_prob : ℚ) (gateDraw skDraw : ℚ)
    (target : PersonAgent) (m : Counters) : PersonAgent × Counters :=
  if ¬ target.knows_about_trend ∧ (target.sport_enthusiast ∨ gateDraw < gossip_prob) then
    let m' := { m with direct_interactions_count := m.direct_interactions_count + 1 }
    learn_about_trend target true skDraw m'
  else (target, m)

/-- The per-follower body of
`InfluencerAgent.spread_news_among_random_followers`: with probability `0.5`
the influencer reaches the follower, incrementing its
`reached_followers_counter` and the model's `indirect_interactions_count`,
then running `learn_about_trend` with `is_direct = False`. -/
def spread_among_followers_one (inf : InfluencerAgent) (gateDraw skDraw : ℚ)
    (target : PersonAgent) (m : Counters) :
    InfluencerAgent × PersonAgent × Counters :=
  if gateDraw < 1/2 then
    let inf' := { inf with reached_followers_counter := inf.reached_followers_counter + 1 }
    let m' := { m with indirect_interactions_count := m.indirect_interactions_count + 1 }
    let tm := learn_about_trend target false skDraw m'
    (inf', tm.1, tm.2)
  else (inf, target, m)

/-- The random stream of `TrendSpreadModel`, indexed by the (phase, agent)
position at which the source draws. -/
structure Oracle where
  moveChoice : Nat → Nat
  gateDraw : Nat → Nat → ℚ
  skDraw : Nat → Nat → ℚ
  reachDraw : Nat → Nat → ℚ
  reachSkDraw : Nat → Nat → ℚ
  moveChoice2 : Nat → Nat

/-- `TrendSpreadModel`: person agents, influencer agents, the external
grid's neighbourhood function, the interaction counters and the `running`
flag. -/
structure Model where
  agents : List PersonAgent
  influencers : List InfluencerAgent
  nbrs : Nat → List Nat
  counters : Counters
  running : Bool

/-- `len(self._agents_by_type[PersonAgent].select(lambda agent: not agent.knows_about_trend))`. -/
def countUninformed (s : Model) : Nat :=
  (s.agents.filter (fun a => !a.knows_about_trend)).length

/-- One iteration of `self._agents_by_type[PersonAgent].do('move_around')`. -/
def moveStep (o : Oracle) (i : Nat) (s : Model) : Except String Model :=
  match s.agents.get? i with
  | none => Except.ok s
  | some a =>
    match move_around a s.nbrs (o.moveChoice i) with
    | Except.error e => Except.error e
    | Except.ok a' => Except.ok { s with agents := s.agents.set i a' }

/-- One iteration of `…​.do('spread_news')` for the source at index `i`:
grid check; a source that knows the trend runs the per-target body over
every other agent in the same cell. -/
def spreadStep (o : Oracle) (i : Nat) (s : Model) : Except String Model :=
  match s.agents.get? i with
  | none => Except.ok s
  | some self =>
    match self.cell with
    | none => Except.error (gridError "The agent cannot spread the news.")
    | some c =>
      if self.knows_about_trend then
        let res := s.agents.enum.foldl
          (fun (acc : List PersonAgent × Counters) p =>
            if p.1 ≠ i ∧ p.2.cell = some c then
              let tm := spread_news_target self.gossip_prob
                (o.gateDraw i p.1) (o.skDraw i p.1) p.2 acc.2
              (acc.1 ++ [tm.1], tm.2)
            else (acc.1 ++ [p.2], acc.2))
          ([], s.counters)
        Except.ok { s with agents := res.1, counters := res.2 }
      else Except.ok s

/-- One influencer/follower pair of the
`influencer_agents.do('spread_news_among_random_followers', agents)` loop. -/
def influencerSpreadOne (o : Oracle) (k j : Nat) (s : Model) : Model :=
  match s.influencers.get? k, s.agents.get? j with
  | some inf, some t =>
    let r := spread_among_followers_one inf (o.reachDraw k j) (o.reachSkDraw k j)
      t s.counters
    { s with influencers := s.influencers.set k r.1,
             agents := s.agents.set j r.2.1,
             counters := r.2.2 }
  | _, _ => s

/-- The extra `move_around` the non-enthusiast uninformed agents perform
inside `influencer_agents_step` (`agents.do('move_around')`). -/
def extraMoveStep (o : Oracle) (j : Nat) (t : Model) : Except String Model :=
  match t.agents.get? j with
  | none => Except.ok t
  | some a =>
    match move_around a t.nbrs (o.moveChoice2 j) with
    | Except.error e => Except.error e
    | Except.ok a' => Except.ok { t with agents := t.agents.set j a' }

/-- `TrendSpreadModel.influencer_agents_step`: select the regular agents that
do not yet know the trend, group them by `sport_enthusiast`; every influencer
addresses the enthusiast group (the group membership is fixed before the
loop), while the non-enthusiast group performs an extra `move_around`. -/
def influencer_agents_step (o : Oracle) (s : Model) : Except String Model :=
  let regularIdx := (List.range s.agents.length).filter
    (fun j => ((s.agents.get? j).map (fun a => !a.knows_about_trend)).getD false)
  let enthIdx := regularIdx.filter
    (fun j => ((s.agents.get? j).map (fun a => a.sport_enthusiast)).getD false)
  let nonEnthIdx := regularIdx.filter
    (fun j => ((s.agents.get? j).map (fun a => !a.sport_enthusiast)).getD false)
  let s1 := (List.range s.influencers.length).foldl
    (fun t k => enthIdx.foldl (fun u j => influencerSpreadOne o k j u) t) s
  iterM (extraMoveStep o) nonEnthIdx s1

/-- `TrendSpreadModel.step`, wrapped by `_stop_condition`: if no uninformed
person remains, set `running := False` and do nothing else; otherwise run the
move pass, the spread pass and the influencer phase. -/
def step (o : Oracle) (s : Model) : Except String Model :=
  if countUninformed s = 0 then
    Except.ok { s with running := false }
  else
    match iterM (moveStep o) (List.range s.agents.length) s with
    | Except.error e => Except.error e
    | Except.ok s1 =>
      match iterM (spreadStep o) (List.range s1.agents.length) s1 with
      | Except.error e => Except.error e
      | Except.ok s2 => influencer_agents_step o s2

/-- `TrendSpreadModel.generate_person_agents` (before grid placement):
`sportDraw = self.random.randint(1, self.population_size)` sport enthusiasts
with `skepticism_prob=0.5`, then `population_size - sportDraw`
non-enthusiasts with the default probabilities, then one pre-informed sport
enthusiast (patient zero). -/
def generate_person_agents (population_size sportDraw : Nat) : List PersonAgent :=
  let sport_enthusiasts := sportDraw
  let non_sport_enthusiasts := population_size - sport_enthusiasts
  List.replicate sport_enthusiasts
    { sport_enthusiast := true, trend_gossip_counter := 0,
      knows_about_trend := false, gossip_prob := 1/2,
      skepticism_prob := 1/2, cell := none } ++
  List.replicate non_sport_enthusiasts
    { sport_enthusiast := false, trend_gossip_counter := 0,
      knows_about_trend := false, gossip_prob := 1/2,
      skepticism_prob := 7/10, cell := none } ++
  [{ sport_enthusiast := true, trend_gossip_counter := 0,
     knows_about_trend := true, gossip_prob := 1/2,
     skepticism_prob := 7/10, cell := none }]

/-- Python's `/` on counters: raises `ZeroDivisionError` on a zero
denominator, otherwise divides. -/
def pyDiv (a b : Nat) : Except String ℚ :=
  if b = 0 then Except.error "division by zero"
  else Except.ok ((a : ℚ) / (b : ℚ))

/-- `TrendSpreadModel.direct_interaction_success_ration` (name as in the
source): `0` when no direct interaction was counted, otherwise the Python
division of successes by attempts. -/
def direct_interaction_success_ration (m : Counters) : Except String ℚ :=
  if m.direct_interactions_count = 0 then Except.ok 0
  else pyDiv m.successful_direct_interactions_count m.direct_interactions_count

/-- `TrendSpreadModel.indirect_interaction_success_ration`. -/
def indirect_interaction_success_ration (m : Counters) : Except String ℚ :=
  if m.indirect_interactions_count = 0 then Except.ok 0
  else pyDiv m.successful_indirect_interactions_count m.indirect_interactions_count

end L2

namespace L1

/-- `laboratory1/agents.py` `PersonAgent`: trait flag, knowledge flag, the
per-agent probabilities, the `grid` reference inherited from
`TrendSpreadingAgent` (`none` until the model's grid exists) and the `pos`
coordinate on the `MultiGrid` (as a cell index). -/
structure PersonAgent where
  sport_enthusiast : Bool
  knows_about_trend : Bool
  gossip_prob : ℚ
  skepticism_prob : ℚ
  grid : Option Unit
  pos : Nat
  deriving Repr, DecidableEq

/-- `laboratory1` `PersonAgent.learn_about_trend`: the agent adopts the trend
when the draw is below its own `_skepticism_prob`; no counters exist in this
variant. -/
def learn_about_trend (a : PersonAgent) (draw : ℚ) : PersonAgent :=
  if draw < a.skepticism_prob then { a with knows_about_trend := true } else a

/-- `laboratory1` `PersonAgent.move_around`: grid check, then
`move_agent_to_one_of` a random 4-neighbourhood cell unconditionally — no
probability draw gates the relocation in this variant either. -/
def move_around (a : PersonAgent) (nbrs : Nat → List Nat) (r : Nat) :
    Except String PersonAgent :=
  match a.grid with
  | none => Except.error (gridError "The agent cannot move around the grid.")
  | some _ => Except.ok { a with pos := select_random_cell (nbrs a.pos) r a.pos }

/-- The per-target body of `laboratory1` `PersonAgent.spread_news`: same gate
as `laboratory_2`, then `learn_about_trend`. -/
def spread_news_target (gossip_prob : ℚ) (gateDraw skDraw : ℚ)
    (target : PersonAgent) : PersonAgent :=
  if ¬ target.knows_about_trend ∧ (target.sport_enthusiast ∨ gateDraw < gossip_prob) then
    learn_about_trend target skDraw
  else target

/-- The per-follower body of `laboratory1`
`InfluencerAgent.spread_news_among_followers`: `learn_about_trend`
unconditionally. -/
def spread_among_followers_one (target : PersonAgent) (skDraw : ℚ) : PersonAgent :=
  learn_about_trend target skDraw

/-- `laboratory1` `TrendSpreadModel.generate_person_agents` (before grid
placement): `sportDraw = self.random.randint(1, self.population_size)`
enthusiasts, `population_size - sportDraw` non-enthusiasts, then one
pre-informed enthusiast, all with the default probabilities
(`gossip_prob=0.5`, `skepticism_prob=0.2`). -/
def generate_person_agents (population_size sportDraw : Nat) : List PersonAgent :=
  let sport_enthusiasts := sportDraw
  let non_sport_enthusiasts := population_size - sport_enthusiasts
  List.replicate sport_enthusiasts
    { sport_enthusiast := true, knows_about_trend := false,
      gossip_prob := 1/2, skepticism_prob := 1/5, grid := some (), pos := 0 } ++
  List.replicate non_sport_enthusiasts
    { sport_enthusiast := false, knows_about_trend := false,
      gossip_prob := 1/2, skepticism_prob := 1/5, grid := some (), pos := 0 } ++
  [{ sport_enthusiast := true, knows_about_trend := true,
     gossip_prob := 1/2, skepticism_prob := 1/5, grid := some (), pos := 0 }]

end L1

/-! ## Concrete sample fixtures

Executable sample inputs used to instantiate the universally quantified
theorems below on concrete values. -/

def sampleNbrs : Nat → List Nat := fun _ => [0]

def sampleHW : HW.PersonAgent :=
  { is_infected := true, has_comorbidities := false, moving_probability := 2,
    cell := some 0 }

def sampleHWSusceptible : HW.PersonAgent :=
  { is_infected := false, has_comorbidities := false, moving_probability := 2,
    cell := some 0 }

def sampleHWUnplaced : HW.PersonAgent :=
  { is_infected := false, has_comorbidities := false, moving_probability := 2,
    cell := none }

def sampleHWOracle : HW.Oracle :=
  { moveDraw := fun _ => 0, moveChoice := fun _ => 0,
    spreadDraw := fun _ _ => 0, cellDraw := fun _ => 0 }

def sampleHWModel : HW.Model :=
  { agents := [sampleHW], cells := [{ is_infected := false, virus_persistence := 0 }],
    nbrs := sampleNbrs, direct_infections := 0, location_infections := 0,
    running := true }

def sampleHWModelStopped : HW.Model :=
  { sampleHWModel with running := false }

def sampleL2 : L2.PersonAgent :=
  { sport_enthusiast := true, trend_gossip_counter := 0, knows_about_trend := true,
    gossip_prob := 2, skepticism_prob := 2, cell := some 0 }

def sampleL2Uninformed : L2.PersonAgent :=
  { sport_enthusiast := true, trend_gossip_counter := 0, knows_about_trend := false,
    gossip_prob := 2, skepticism_prob := 2, cell := some 0 }

def sampleL2Unplaced : L2.PersonAgent :=
  { sport_enthusiast := true, trend_gossip_counter := 0, knows_about_trend := false,
    gossip_prob := 2, skepticism_prob := 2, cell := none }

def sampleL2Influencer : L2.InfluencerAgent :=
  { reached_followers_counter := 0 }

def sampleL2Counters : L2.Counters :=
  { direct_interactions_count := 0, indirect_interactions_count := 0,
    successful_direct_interactions_count := 0,
    successful_indirect_interactions_count := 0 }

def sampleL2Oracle : L2.Oracle :=
  { moveChoice := fun _ => 0, gateDraw := fun _ _ => 0, skDraw := fun _ _ => 1,
    reachDraw := fun _ _ => 0, reachSkDraw := fun _ _ => 1,
    moveChoice2 := fun _ => 0 }

def sampleL2Model : L2.Model :=
  { agents := [sampleL2], influencers := [sampleL2Influencer], nbrs := sampleNbrs,
    counters := sampleL2Counters, running := true }

def sampleL2ModelStopped : L2.Model :=
  { sampleL2Model with running := false }

def sampleL1 : L1.PersonAgent :=
  { sport_enthusiast := true, knows_about_trend := true, gossip_prob := 2,
    skepticism_prob := 2, grid := some (), pos := 0 }

def sampleL2NonEnth : L2.PersonAgent :=
  { sport_enthusiast := false, trend_gossip_counter := 0,
    knows_about_trend := false, gossip_prob := 2, skepticism_prob := 2,
    cell := some 0 }

def sampleHWModelSusceptible : HW.Model :=
  { agents := [sampleHWSusceptible],
    cells := [{ is_infected := false, virus_persistence := 0 }],
    nbrs := sampleNbrs, direct_infections := 0, location_infections := 0,
    running := true }

def sampleL2ModelUninformed : L2.Model :=
  { agents := [sampleL2Uninformed], influencers := [sampleL2Influencer],
    nbrs := sampleNbrs, counters := sampleL2Counters, running := true }

/-! ## Generic preservation lemmas for the iteration combinators -/

theorem iterM_preserve {σ : Type} {P : σ → Prop} {f : Nat → σ → Except String σ}
    (hf : ∀ i t t', f i t = Except.ok t' → P t → P t') :
    ∀ (l : List Nat) (s s' : σ), iterM f l s = Except.ok s' → P s → P s' := by
  intro l
  induction l with
  | nil =>
    intro s s' h hp
    simp only [iterM] at h
    cases h
    exact hp
  | cons i is ih =>
    intro s s' h hp
    simp only [iterM] at h
    cases hfi : f i s with
    | error e => rw [hfi] at h; cases h
    | ok t => rw [hfi] at h; exact ih t s' h (hf i s t hfi hp)

theorem foldl_preserve {σ α : Type} {P : σ → Prop} {f : σ → α → σ}
    (hf : ∀ s a, P s → P (f s a)) :
    ∀ (l : List α) (s : σ), P s → P (l.foldl f s) := by
  intro l
  induction l with
  | nil => intro s hp; simpa using hp
  | cons a as ih => intro s hp; simpa using ih (f s a) (hf s a hp)

theorem foldl_step_length {α γ ι : Type} {f : List α × γ → ι → List α × γ}
    (hf : ∀ acc x, ((f acc x).1).length = acc.1.length + 1) :
    ∀ (l : List ι) (acc : List α × γ),
      ((l.foldl f acc).1).length = acc.1.length + l.length := by
  intro l
  induction l with
  | nil => intro acc; simp
  | cons x xs ih =>
    intro acc
    rw [List.foldl_cons, ih (f acc x), hf acc x, List.length_cons]
    omega

/-! ## Phase lemmas for the disease model -/

namespace HW

theorem hw_moveStep_ok {o : Oracle} {i : Nat} {s s' : Model}
    (h : moveStep o i s = Except.ok s') :
    s'.running = s.running ∧ s'.agents.length = s.agents.length := by
  unfold moveStep at h
  split at h
  · cases h; exact ⟨rfl, rfl⟩
  · split at h
    · cases h
    · cases h; simp

theorem hw_spreadStep_ok {o : Oracle} {i : Nat} {s s' : Model}
    (h : spreadStep o i s = Except.ok s') :
    s'.running = s.running ∧ s'.agents.length = s.agents.length := by
  unfold spreadStep at h
  split at h
  · cases h; exact ⟨rfl, rfl⟩
  · split at h
    · cases h
    · split at h
      · cases h
        simp
      · cases h; exact ⟨rfl, rfl⟩

theorem cellStep_ok {o : Oracle} {i : Nat} {s s' : Model}
    (h : cellStep o i s = Except.ok s') :
    s'.running = s.running ∧ s'.agents.length = s.agents.length := by
  unfold cellStep at h
  split at h
  · cases h; exact ⟨rfl, rfl⟩
  · dsimp only at h
    split at h
    · cases h
    · cases h; simp

theorem decayAll_running (s : Model) : (decayAll s).running = s.running := rfl

theorem decayAll_agents (s : Model) : (decayAll s).agents = s.agents := rfl

theorem hw_step_ok {o : Oracle} {s s' : Model} (h : step o s = Except.ok s') :
    s'.running = (if countUninfected s = 0 then false else s.running) ∧
    s'.agents.length = s.agents.length := by
  unfold step at h
  by_cases hc : countUninfected s = 0
  · rw [if_pos hc] at h
    cases h
    simp [hc]
  · rw [if_neg hc] at h
    rw [if_neg hc]
    have pres : ∀ (f : Oracle → Nat → Model → Except String Model),
        (∀ (oo : Oracle) (i : Nat) (t t' : Model), f oo i t = Except.ok t' →
          t'.running = t.running ∧ t'.agents.length = t.agents.length) →
        ∀ (l : List Nat) (t t' : Model), iterM (f o) l t = Except.ok t' →
          t'.running = t.running ∧ t'.agents.length = t.agents.length := by
      intro f hf l t t' hit
      have := iterM_preserve
        (P := fun u => u.running = t.running ∧ u.agents.length = t.agents.length)
        (f := f o) ?_ l t t' hit ⟨rfl, rfl⟩
      · exact this
      · intro i u u' hu ⟨h1, h2⟩
        obtain ⟨g1, g2⟩ := hf o i u u' hu
        exact ⟨g1.trans h1, g2.trans h2⟩
    split at h
    · cases h
    · rename_i s1 h1
      split at h
      · cases h
      · rename_i s2 h2
        split at h
        · cases h
        · rename_i s3 h3
          cases h
          obtain ⟨a1, b1⟩ := pres moveStep (fun oo i t t' ht => hw_moveStep_ok ht)
            (List.range s.agents.length) s s1 h1
          obtain ⟨a2, b2⟩ := pres spreadStep (fun oo i t t' ht => hw_spreadStep_ok ht)
            (List.range s1.agents.length) s1 s2 h2
          obtain ⟨a3, b3⟩ := pres cellStep (fun oo i t t' ht => cellStep_ok ht)
            (List.range s2.agents.length) s2 s3 h3
          refine ⟨?_, ?_⟩
          · rw [decayAll_running, a3, a2, a1]
          · rw [decayAll_agents]; omega

theorem hw_step_stopped (o : Oracle) (s : Model) (hc : countUninfected s = 0) :
    step o s = Except.ok { s with running := false } := by
  unfold step
  rw [if_pos hc]

end HW

/-! ## Phase lemmas for the laboratory_2 trend model -/

namespace L2

theorem l2_moveStep_ok {o : Oracle} {i : Nat} {s s' : Model}
    (h : moveStep o i s = Except.ok s') :
    s'.running = s.running ∧ s'.agents.length = s.agents.length := by
  unfold moveStep at h
  split at h
  · cases h; exact ⟨rfl, rfl⟩
  · split at h
    · cases h
    · cases h; simp

theorem l2_spreadStep_ok {o : Oracle} {i : Nat} {s s' : Model}
    (h : spreadStep o i s = Except.ok s') :
    s'.running = s.running ∧ s'.agents.length = s.agents.length := by
  unfold spreadStep at h
  split at h
  · cases h; exact ⟨rfl, rfl⟩
  · split at h
    · cases h
    · split at h
      · cases h
        refine ⟨rfl, ?_⟩
        dsimp only
        rw [foldl_step_length (by intro acc p; split <;> simp)]
        simp [List.enum_length]
      · cases h; exact ⟨rfl, rfl⟩

theorem influencerSpreadOne_preserve (o : Oracle) (k j : Nat) (s : Model) :
    (influencerSpreadOne o k j s).running = s.running ∧
    (influencerSpreadOne o k j s).agents.length = s.agents.length := by
  unfold influencerSpreadOne
  split
  · constructor
    · rfl
    · simp
  · exact ⟨rfl, rfl⟩

theorem extraMoveStep_ok {o : Oracle} {j : Nat} {s s' : Model}
    (h : extraMoveStep o j s = Except.ok s') :
    s'.running = s.running ∧ s'.agents.length = s.agents.length := by
  unfold extraMoveStep at h
  split at h
  · cases h; exact ⟨rfl, rfl⟩
  · split at h
    · cases h
    · cases h; simp

theorem influencer_agents_step_ok {o : Oracle} {s s' : Model}
    (h : influencer_agents_step o s = Except.ok s') :
    s'.running = s.running ∧ s'.agents.length = s.agents.length := by
  unfold influencer_agents_step at h
  dsimp only at h
  refine iterM_preserve
    (P := fun t => t.running = s.running ∧ t.agents.length = s.agents.length)
    ?_ _ _ s' h ?_
  · intro i t t' ht hp
    obtain ⟨g1, g2⟩ := extraMoveStep_ok ht
    exact ⟨g1.trans hp.1, g2.trans hp.2⟩
  · refine foldl_preserve
      (P := fun t => t.running = s.running ∧ t.agents.length = s.agents.length)
      ?_ _ s ⟨rfl, rfl⟩
    intro t k hp
    refine foldl_preserve
      (P := fun t => t.running = s.running ∧ t.agents.length = s.agents.length)
      ?_ _ t hp
    intro u j hu
    obtain ⟨g1, g2⟩ := influencerSpreadOne_preserve o k j u
    exact ⟨g1.trans hu.1, g2.trans hu.2⟩

theorem l2_step_ok {o : Oracle} {s s' : Model} (h : step o s = Except.ok s') :
    s'.running = (if countUninformed s = 0 then false else s.running) ∧
    s'.agents.length = s.agents.length := by
  unfold step at h
  by_cases hc : countUninformed s = 0
  · rw [if_pos hc] at h
    cases h
    simp [hc]
  · rw [if_neg hc] at h
    rw [if_neg hc]
    split at h
    · cases h
    · rename_i s1 h1
      split at h
      · cases h
      · rename_i s2 h2
        have pres : ∀ (f : Nat → Model → Except String Model),
            (∀ (i : Nat) (t t' : Model), f i t = Except.ok t' →
              t'.running = t.running ∧ t'.agents.length = t.agents.length) →
            ∀ (l : List Nat) (t t' : Model), iterM f l t = Except.ok t' →
              t'.running = t.running ∧ t'.agents.length = t.agents.length := by
          intro f hf l t t' hit
          refine iterM_preserve
            (P := fun u => u.running = t.running ∧ u.agents.length = t.agents.length)
            ?_ l t t' hit ⟨rfl, rfl⟩
          intro i u u' hu hp
          obtain ⟨g1, g2⟩ := hf i u u' hu
          exact ⟨g1.trans hp.1, g2.trans hp.2⟩
        obtain ⟨a1, b1⟩ := pres (moveStep o) (fun i t t' ht => l2_moveStep_ok ht)
          (List.range s.agents.length) s s1 h1
        obtain ⟨a2, b2⟩ := pres (spreadStep o) (fun i t t' ht => l2_spreadStep_ok ht)
          (List.range s1.agents.length) s1 s2 h2
        obtain ⟨a3, b3⟩ := influencer_agents_step_ok h
        exact ⟨a3.trans (a2.trans a1), b3.trans (b2.trans b1)⟩

theorem l2_step_stopped (o : Oracle) (s : Model) (hc : countUninformed s = 0) :
    step o s = Except.ok { s with running := false } := by
  unfold step
  rw [if_pos hc]

theorem learn_about_trend_knows (a : PersonAgent) (d : Bool) (dr : ℚ)
    (m : Counters) :
    ((learn_about_trend a d dr m).1).knows_about_trend =
      (a.knows_about_trend || decide (dr > 1/5)) := by
  unfold learn_about_trend
  by_cases hd : (5 : ℚ)⁻¹ < dr <;> simp [hd]

end L2

theorem length_filter_replicate {α : Type} (p : α → Bool) (a : α) (n : Nat) :
    ((List.replicate n a).filter p).length = if p a then n else 0 := by
  induction n with
  | zero => simp
  | succ m ih =>
    rw [List.replicate_succ, List.filter_cons]
    by_cases hp : p a = true
    · simp only [hp, if_true] at ih ⊢
      simp [ih]
    · simp only [Bool.not_eq_true] at hp
      simp only [hp] at ih ⊢
      simp [ih]

/-! ## The claims -/

/-- C3, counterexample: a contaminated cell with persistence counter `2` and
no infected occupant has its counter incremented to `3`, which does **not**
exceed the claimed threshold of `3`, yet the code (`virus_persistence > 2`)
already reverts the cell to uncontaminated.  The claimed clearing point
(counter exceeding 3, i.e. reaching 4) is therefore wrong. -/
theorem claim_C3_cex :
    HW.decay_cell { is_infected := true, virus_persistence := 2 } false =
      { is_infected := false, virus_persistence := 0 } ∧ ¬ 3 > 3 := by
  exact ⟨rfl, by omega⟩

/-- C3, amended: in the environment decay step, for every contaminated cell:
an infected occupant resets the persistence counter to `0`; otherwise the
counter is incremented, and the cell reverts to uncontaminated with the
counter reset exactly when the incremented counter exceeds `2` (threshold 2,
not 3) — i.e. on the third consecutive tick without an infected occupant.
Consequently the counter never exceeds `2` after a decay step, so it can
never reach `4`. -/
theorem claim_C3_amended (cell : HW.Cell) (present : Bool) :
    (cell.is_infected = true → present = true →
      HW.decay_cell cell present = { is_infected := true, virus_persistence := 0 }) ∧
    (cell.is_infected = true → present = false → cell.virus_persistence + 1 ≤ 2 →
      HW.decay_cell cell present =
        { is_infected := true, virus_persistence := cell.virus_persistence + 1 }) ∧
    (cell.is_infected = true → present = false → cell.virus_persistence + 1 > 2 →
      HW.decay_cell cell present = { is_infected := false, virus_persistence := 0 }) ∧
    (cell.is_infected = false → HW.decay_cell cell present = cell) ∧
    (cell.virus_persistence ≤ 2 →
      (HW.decay_cell cell present).virus_persistence ≤ 2) := by
  obtain ⟨ci, vp⟩ := cell
  refine ⟨?_, ?_, ?_, ?_, ?_⟩
  · intro hci hp
    subst hci; subst hp
    rfl
  · intro hci hp hv
    subst hci; subst hp
    dsimp only at hv
    show (if vp + 1 > 2 then ({ is_infected := false, virus_persistence := 0 } : HW.Cell)
      else { is_infected := true, virus_persistence := vp + 1 }) = _
    rw [if_neg (by omega)]
  · intro hci hp hv
    subst hci; subst hp
    dsimp only at hv
    show (if vp + 1 > 2 then ({ is_infected := false, virus_persistence := 0 } : HW.Cell)
      else { is_infected := true, virus_persistence := vp + 1 }) = _
    rw [if_pos (by omega)]
  · intro hci
    subst hci
    rfl
  · intro hv
    dsimp only at hv
    cases ci
    · exact hv
    · cases present
      · show (if vp + 1 > 2 then ({ is_infected := false, virus_persistence := 0 } : HW.Cell)
          else { is_infected := true, virus_persistence := vp + 1 }).virus_persistence ≤ 2
        by_cases hgt : vp + 1 > 2
        · rw [if_pos hgt]
          dsimp only
          omega
        · rw [if_neg hgt]
          dsimp only
          omega
      · show (0 : Nat) ≤ 2
        omega

/-- C3, witness for the amended theorem: a contaminated cell with counter `0`
and no infected occupant increments to `1` and stays contaminated. -/
theorem claim_C3_amended_witness :
    true = true ∧ false = false ∧ 0 + 1 ≤ 2 ∧
    HW.decay_cell { is_infected := true, virus_persistence := 0 } false =
      { is_infected := true, virus_persistence := 1 } :=
  ⟨rfl, rfl, by omega,
    (claim_C3_amended { is_infected := true, virus_persistence := 0 } false).2.1
      rfl rfl (by decide)⟩

/-- C5, counterexample: no agent/cell configuration makes the passive
infection probability of `_get_infection_probabilty` exceed `1.0` — the
trait contribution is at most `0.25` and the location contribution at most
`0.5`, so the sum is at most `0.75`.  The claim's "for some reachable
configuration the summed probability exceeds 1.0" is false. -/
theorem claim_C5_cex :
    ¬ ∃ hc ci ni : Bool, (1 : ℚ) < HW.infection_probability_core hc ci ni := by
  rintro ⟨hc, ci, ni, h⟩
  cases hc <;> cases ci <;> cases ni <;>
    norm_num [HW.infection_probability_core] at h

/-- C5, amended: the passive infection probability is the sum of a
trait-based contribution (`0.25` with comorbidities, else `0`) and a
location-based contribution (`+0.5` on a contaminated cell, `+0.25` adjacent
to one, otherwise the result is `0` outright); no explicit cap is applied,
but the maximum attainable value is `0.75`, so the sum never exceeds `1.0`. -/
theorem claim_C5_amended :
    (∀ hc ni : Bool, HW.infection_probability_core hc true ni =
      (if hc then (1 : ℚ)/4 else 0) + 1/2) ∧
    (∀ hc : Bool, HW.infection_probability_core hc false true =
      (if hc then (1 : ℚ)/4 else 0) + 1/4) ∧
    (∀ hc : Bool, HW.infection_probability_core hc false false = 0) ∧
    (∀ hc ci ni : Bool, HW.infection_probability_core hc ci ni ≤ 3/4) ∧
    HW.infection_probability_core true true false = 3/4 := by
  refine ⟨?_, ?_, ?_, ?_, ?_⟩
  · intro hc ni
    cases hc <;> cases ni <;> norm_num [HW.infection_probability_core]
  · intro hc
    cases hc <;> norm_num [HW.infection_probability_core]
  · intro hc
    cases hc <;> norm_num [HW.infection_probability_core]
  · intro hc ci ni
    cases hc <;> cases ci <;> cases ni <;> norm_num [HW.infection_probability_core]
  · norm_num [HW.infection_probability_core]

/-- C7: the ratio reporters return exactly `0` when the corresponding attempt
counter is `0` and otherwise the success counter divided by the attempt
counter; the embedded Python division is never reached with a zero
denominator, so no division-by-zero error is ever raised. -/
theorem claim_C7_ratio_reporters (m : L2.Counters) :
    L2.direct_interaction_success_ration m =
      Except.ok (if m.direct_interactions_count = 0 then 0
        else (m.successful_direct_interactions_count : ℚ) /
          (m.direct_interactions_count : ℚ)) ∧
    L2.indirect_interaction_success_ration m =
      Except.ok (if m.indirect_interactions_count = 0 then 0
        else (m.successful_indirect_interactions_count : ℚ) /
          (m.indirect_interactions_count : ℚ)) := by
  constructor
  · unfold L2.direct_interaction_success_ration L2.pyDiv
    by_cases hd : m.direct_interactions_count = 0 <;> simp [hd]
  · unfold L2.indirect_interaction_success_ration L2.pyDiv
    by_cases hd : m.indirect_interactions_count = 0 <;> simp [hd]

/-- C10: `laboratory_2` `learn_about_trend` uses the fixed skepticism
threshold `0.2`, ignoring the per-agent `_skepticism_prob` field: the gossip
counter increments on every call, the agent ends up informed exactly when it
already was or the uniform draw is strictly greater than `0.2`, and replacing
the agent's `_skepticism_prob` by any other value changes neither the
resulting knowledge flag, nor the gossip counter, nor the model counters. -/
theorem claim_C10_fixed_skepticism (a : L2.PersonAgent) (d : Bool) (dr q : ℚ)
    (m : L2.Counters) :
    ((L2.learn_about_trend a d dr m).1).trend_gossip_counter =
      a.trend_gossip_counter + 1 ∧
    ((L2.learn_about_trend a d dr m).1).knows_about_trend =
      (a.knows_about_trend || decide (dr > 1/5)) ∧
    ((L2.learn_about_trend { a with skepticism_prob := q } d dr m).1).knows_about_trend =
      ((L2.learn_about_trend a d dr m).1).knows_about_trend ∧
    ((L2.learn_about_trend { a with skepticism_prob := q } d dr m).1).trend_gossip_counter =
      ((L2.learn_about_trend a d dr m).1).trend_gossip_counter ∧
    (L2.learn_about_trend { a with skepticism_prob := q } d dr m).2 =
      (L2.learn_about_trend a d dr m).2 := by
  unfold L2.learn_about_trend
  by_cases hd : (5 : ℚ)⁻¹ < dr <;> simp [hd]

/-- C1: agent-level monotonicity in every variant — no operation of any model
(move, direct spread/transmit, passive acquisition, indirect influencer
delivery, environment decay) ever resets an agent's informed/infected flag to
`false`: moves leave the flag untouched, the transmission and learning
operations can only set it (their result flag is the old flag `or`-ed with
the success of the draw), an already-infected/informed target is left
unchanged, and the decay step does not touch the agent population at all. -/
theorem claim_C1_monotone :
    (∀ a nbrs d r a', HW.move_around a nbrs d r = Except.ok a' →
      a'.is_infected = a.is_infected) ∧
    (∀ d t, ((HW.spread_virus_target d t).1).is_infected =
      (t.is_infected || (HW.spread_virus_target d t).2)) ∧
    (∀ d t, t.is_infected = true → HW.spread_virus_target d t = (t, false)) ∧
    (∀ a ci ni d r, HW.get_infected_from_cell a ci ni d = Except.ok r →
      ((r.1).is_infected = (a.is_infected || r.2))) ∧
    (∀ s, (HW.decayAll s).agents = s.agents) ∧
    (∀ a d dr m, ((L2.learn_about_trend a d dr m).1).knows_about_trend =
      (a.knows_about_trend || decide (dr > 1/5))) ∧
    (∀ a nbrs r a', L2.move_around a nbrs r = Except.ok a' →
      a'.knows_about_trend = a.knows_about_trend) ∧
    (∀ gp g k t m, t.knows_about_trend = true →
      ((L2.spread_news_target gp g k t m).1).knows_about_trend = true) ∧
    (∀ inf g k t m, t.knows_about_trend = true →
      (((L2.spread_among_followers_one inf g k t m).2).1).knows_about_trend = true) ∧
    (∀ a dr, (L1.learn_about_trend a dr).knows_about_trend =
      (a.knows_about_trend || decide (dr < a.skepticism_prob))) ∧
    (∀ a nbrs r a', L1.move_around a nbrs r = Except.ok a' →
      a'.knows_about_trend = a.knows_about_trend) ∧
    (∀ gp g k t, t.knows_about_trend = true →
      (L1.spread_news_target gp g k t).knows_about_trend = true) := by
  refine ⟨?_, ?_, ?_, ?_, ?_, ?_, ?_, ?_, ?_, ?_, ?_, ?_⟩
  · intro a nbrs d r a' h
    unfold HW.move_around at h
    split at h
    · cases h
    · split at h <;> · cases h; rfl
  · intro d t
    unfold HW.spread_virus_target
    split <;> (dsimp only; split <;> simp)
  · intro d t ht
    unfold HW.spread_virus_target
    simp [ht]
  · intro a ci ni d r h
    unfold HW.get_infected_from_cell at h
    split at h
    · cases h
    · split at h
      · cases h
        simp
      · cases h
        simp
  · intro s
    rfl
  · intro a d dr m
    exact L2.learn_about_trend_knows a d dr m
  · intro a nbrs r a' h
    unfold L2.move_around at h
    split at h
    · cases h
    · cases h; rfl
  · intro gp g k t m ht
    unfold L2.spread_news_target
    rw [if_neg (by simp [ht])]
    exact ht
  · intro inf g k t m ht
    unfold L2.spread_among_followers_one
    split
    · dsimp only
      rw [L2.learn_about_trend_knows]
      simp [ht]
    · exact ht
  · intro a dr
    unfold L1.learn_about_trend
    by_cases hd : dr < a.skepticism_prob <;> simp [hd]
  · intro a nbrs r a' h
    unfold L1.move_around at h
    split at h
    · cases h
    · cases h; rfl
  · intro gp g k t ht
    unfold L1.spread_news_target
    rw [if_neg (by simp [ht])]
    exact ht

/-- C1, witness: the hypothesis-bearing monotonicity conjuncts instantiated
on concrete infected/informed agents. -/
theorem claim_C1_monotone_witness :
    (HW.move_around sampleHW sampleNbrs 0 0 = Except.ok sampleHW ∧
      sampleHW.is_infected = sampleHW.is_infected) ∧
    (sampleHW.is_infected = true ∧ HW.spread_virus_target 0 sampleHW = (sampleHW, false)) ∧
    (HW.get_infected_from_cell sampleHW false false 0 = Except.ok (sampleHW, false) ∧
      (sampleHW, false).1.is_infected = (sampleHW.is_infected || false)) ∧
    (L2.move_around sampleL2 sampleNbrs 0 = Except.ok sampleL2 ∧
      sampleL2.knows_about_trend = sampleL2.knows_about_trend) ∧
    (sampleL2.knows_about_trend = true ∧
      ((L2.spread_news_target 2 0 1 sampleL2 sampleL2Counters).1).knows_about_trend = true) ∧
    (sampleL2.knows_about_trend = true ∧
      (((L2.spread_among_followers_one sampleL2Influencer 0 1 sampleL2
        sampleL2Counters).2).1).knows_about_trend = true) ∧
    (L1.move_around sampleL1 sampleNbrs 0 = Except.ok sampleL1 ∧
      sampleL1.knows_about_trend = sampleL1.knows_about_trend) ∧
    (sampleL1.knows_about_trend = true ∧
      (L1.spread_news_target 2 0 1 sampleL1).knows_about_trend = true) :=
  ⟨⟨rfl, claim_C1_monotone.1 sampleHW sampleNbrs 0 0 sampleHW (rfl)⟩,
   ⟨rfl, claim_C1_monotone.2.2.1 0 sampleHW (rfl)⟩,
   ⟨rfl, claim_C1_monotone.2.2.2.1 sampleHW false false 0 (sampleHW, false)
      (rfl)⟩,
   ⟨rfl, claim_C1_monotone.2.2.2.2.2.2.1 sampleL2 sampleNbrs 0 sampleL2
      (rfl)⟩,
   ⟨rfl, claim_C1_monotone.2.2.2.2.2.2.2.1 2 0 1 sampleL2 sampleL2Counters
      (rfl)⟩,
   ⟨rfl, claim_C1_monotone.2.2.2.2.2.2.2.2.1 sampleL2Influencer 0 1 sampleL2
      sampleL2Counters (rfl)⟩,
   ⟨rfl, claim_C1_monotone.2.2.2.2.2.2.2.2.2.2.1 sampleL1 sampleNbrs 0
      sampleL1 (rfl)⟩,
   ⟨rfl, claim_C1_monotone.2.2.2.2.2.2.2.2.2.2.2 2 0 1 sampleL1 (rfl)⟩⟩

/-- C4, counterexample: in the trend variants the move operation consumes no
probability draw at all and relocates on every successful call — here a
`laboratory_2` agent at cell `0` moves to cell `1` although no draw gated the
relocation, and likewise in `laboratory1`.  The claimed "no-op (position
unchanged) otherwise" branch does not exist in these variants, so the claim
as stated ("in every variant") is false. -/
theorem claim_C4_cex :
    L2.move_around sampleL2 (fun _ => [1]) 0 =
      Except.ok { sampleL2 with cell := some 1 } ∧
    some 1 ≠ sampleL2.cell ∧
    L1.move_around sampleL1 (fun _ => [1]) 0 =
      Except.ok { sampleL1 with pos := 1 } ∧
    (1 : Nat) ≠ sampleL1.pos := by
  exact ⟨rfl, by decide, rfl, by decide⟩

/-- C4, amended: only the disease variant gates movement by a probability —
there `move_around` relocates to the randomly selected neighbouring cell
exactly when the draw is below `_moving_probability` and is a no-op
otherwise; the trend variants' `move_around` relocates to the randomly
selected neighbouring cell unconditionally on every successful call. -/
theorem claim_C4_amended :
    (∀ a nbrs d r c, a.cell = some c →
      HW.move_around a nbrs d r = Except.ok
        (if d < a.moving_probability then
          { a with cell := some (select_random_cell (nbrs c) r c) } else a)) ∧
    (∀ a nbrs r c, a.cell = some c →
      L2.move_around a nbrs r =
        Except.ok { a with cell := some (select_random_cell (nbrs c) r c) }) ∧
    (∀ a nbrs r, a.grid = some () →
      L1.move_around a nbrs r =
        Except.ok { a with pos := select_random_cell (nbrs a.pos) r a.pos }) := by
  refine ⟨?_, ?_, ?_⟩
  · intro a nbrs d r c hc
    unfold HW.move_around
    simp only [hc]
    by_cases hd : d < a.moving_probability
    · rw [if_pos hd, if_pos hd]
    · rw [if_neg hd, if_neg hd]
  · intro a nbrs r c hc
    unfold L2.move_around
    simp only [hc]
  · intro a nbrs r hg
    unfold L1.move_around
    simp only [hg]

/-- C4, witness for the amended theorem: the disease-variant gated move and
the unconditional trend-variant moves at concrete agents. -/
theorem claim_C4_amended_witness :
    (sampleHW.cell = some 0 ∧
      HW.move_around sampleHW sampleNbrs 0 0 = Except.ok
        (if (0 : ℚ) < sampleHW.moving_probability then
          { sampleHW with cell := some (select_random_cell (sampleNbrs 0) 0 0) }
         else sampleHW)) ∧
    (sampleL2.cell = some 0 ∧
      L2.move_around sampleL2 sampleNbrs 0 =
        Except.ok { sampleL2 with cell := some (select_random_cell (sampleNbrs 0) 0 0) }) ∧
    (sampleL1.grid = some () ∧
      L1.move_around sampleL1 sampleNbrs 0 =
        Except.ok { sampleL1 with pos := select_random_cell (sampleNbrs 0) 0 0 }) :=
  ⟨⟨rfl, claim_C4_amended.1 sampleHW sampleNbrs 0 0 0 rfl⟩,
   ⟨rfl, claim_C4_amended.2.1 sampleL2 sampleNbrs 0 0 rfl⟩,
   ⟨rfl, claim_C4_amended.2.2 sampleL1 sampleNbrs 0 rfl⟩⟩

/-- C6, counterexample: in `laboratory_2`, a sport-enthusiast uninformed
target passes the gate without any draw and the direct-interaction counter
increments, but the skepticism draw `0` — which is *below* the `0.2`
threshold — leaves the target uninformed and the success counter unchanged.
So the attempt counter increments even though the target does not
transition, and the flag transition happens on draws strictly *above* `0.2`,
refuting "exactly when the draw is below the threshold the target's flag
becomes true and the direct-interaction counter and the direct-success
counter both increment".  Moreover, with the same gate draw a non-enthusiast
target is not even addressed while the enthusiast is, refuting "higher if
the target ... is not a sport enthusiast" for this variant. -/
theorem claim_C6_cex :
    ((L2.spread_news_target 1 1 0 sampleL2Uninformed sampleL2Counters).2).direct_interactions_count = 1 ∧
    ((L2.spread_news_target 1 1 0 sampleL2Uninformed sampleL2Counters).1).knows_about_trend = false ∧
    ((L2.spread_news_target 1 1 0 sampleL2Uninformed sampleL2Counters).2).successful_direct_interactions_count = 0 ∧
    ((L2.spread_news_target 1 1 0 sampleL2NonEnth sampleL2Counters).2).direct_interactions_count = 0 ∧
    ((L2.spread_news_target 1 1 0 sampleL2NonEnth sampleL2Counters).1).knows_about_trend = false := by
  refine ⟨?_, ?_, ?_, ?_, ?_⟩ <;>
    norm_num [L2.spread_news_target, L2.learn_about_trend, sampleL2Uninformed,
      sampleL2NonEnth, sampleL2Counters]

/-- C6, amended: only informed/infected agents act.  In the disease variant,
for every co-located other agent a single draw against the trait probability
(`0.75` with comorbidities, `0.5` otherwise) decides the transition, and the
single direct-infection counter increments exactly when the target
transitions.  In `laboratory_2`, a co-located uninformed target is addressed
when a gate passes — automatically for sport enthusiasts, otherwise when the
gate draw is below the source's `_gossip_prob`; being addressed increments
the direct-interaction (attempt) counter unconditionally, and the target
transitions — with the direct-success counter incrementing — exactly when
its separate skepticism draw is strictly above `0.2`. -/
theorem claim_C6_amended :
    (∀ o i s self c, s.agents.get? i = some self → self.cell = some c →
      self.is_infected = false → HW.spreadStep o i s = Except.ok s) ∧
    (∀ o i s self c, s.agents.get? i = some self → self.cell = some c →
      self.knows_about_trend = false → L2.spreadStep o i s = Except.ok s) ∧
    (∀ d t, t.is_infected = false →
      HW.spread_virus_target d t =
        (if d < (if t.has_comorbidities then (3 : ℚ)/4 else 1/2)
         then ({ t with is_infected := true }, true) else (t, false))) ∧
    (∀ gp g k t m, t.knows_about_trend = false →
      (t.sport_enthusiast = true ∨ g < gp) →
      L2.spread_news_target gp g k t m =
        L2.learn_about_trend t true k
          { m with direct_interactions_count := m.direct_interactions_count + 1 }) ∧
    (∀ gp g k t m, t.knows_about_trend = false → t.sport_enthusiast = false →
      ¬ g < gp → L2.spread_news_target gp g k t m = (t, m)) ∧
    (∀ t d m, d > (1 : ℚ)/5 →
      ((L2.learn_about_trend t true d m).1).knows_about_trend = true ∧
      ((L2.learn_about_trend t true d m).2).successful_direct_interactions_count =
        m.successful_direct_interactions_count + 1) ∧
    (∀ t d m, ¬ d > (1 : ℚ)/5 →
      ((L2.learn_about_trend t true d m).1).knows_about_trend =
        t.knows_about_trend ∧
      (L2.learn_about_trend t true d m).2 = m) := by
  refine ⟨?_, ?_, ?_, ?_, ?_, ?_, ?_⟩
  · intro o i s self c hg hc hinf
    unfold HW.spreadStep
    simp only [hg, hc, hinf]
    rfl
  · intro o i s self c hg hc hinf
    unfold L2.spreadStep
    simp only [hg, hc, hinf]
    rfl
  · intro d t ht
    unfold HW.spread_virus_target
    dsimp only
    rw [ht]
    by_cases hd : d < (if t.has_comorbidities then (3 : ℚ)/4 else 1/2)
    · rw [decide_eq_true hd]
      have hd' := hd
      rw [one_div] at hd'
      simp [hd']
    · rw [decide_eq_false hd]
      have hd' := hd
      rw [one_div] at hd'
      simp [hd']
  · intro gp g k t m ht hgate
    unfold L2.spread_news_target
    rw [if_pos ⟨by simp [ht], hgate⟩]
  · intro gp g k t m ht hse hg
    unfold L2.spread_news_target
    rw [if_neg]
    rintro ⟨-, h2⟩
    rcases h2 with h2 | h2
    · rw [hse] at h2; cases h2
    · exact hg h2
  · intro t d m hd
    unfold L2.learn_about_trend
    dsimp only
    rw [if_pos hd]
    exact ⟨rfl, rfl⟩
  · intro t d m hd
    unfold L2.learn_about_trend
    dsimp only
    rw [if_neg hd]
    exact ⟨rfl, rfl⟩

/-- C6, witness for the amended theorem: each hypothesis-bearing conjunct
instantiated on concrete agents, models and draws. -/
theorem claim_C6_amended_witness :
    (sampleHWModelSusceptible.agents.get? 0 = some sampleHWSusceptible ∧
      sampleHWSusceptible.cell = some 0 ∧ sampleHWSusceptible.is_infected = false ∧
      HW.spreadStep sampleHWOracle 0 sampleHWModelSusceptible =
        Except.ok sampleHWModelSusceptible) ∧
    (sampleL2ModelUninformed.agents.get? 0 = some sampleL2Uninformed ∧
      sampleL2Uninformed.cell = some 0 ∧
      sampleL2Uninformed.knows_about_trend = false ∧
      L2.spreadStep sampleL2Oracle 0 sampleL2ModelUninformed =
        Except.ok sampleL2ModelUninformed) ∧
    (sampleHWSusceptible.is_infected = false ∧
      HW.spread_virus_target 2 sampleHWSusceptible = (sampleHWSusceptible, false)) ∧
    (sampleL2Uninformed.knows_about_trend = false ∧
      (sampleL2Uninformed.sport_enthusiast = true ∨ (0 : ℚ) < 2) ∧
      L2.spread_news_target 2 0 1 sampleL2Uninformed sampleL2Counters =
        L2.learn_about_trend sampleL2Uninformed true 1
          { sampleL2Counters with direct_interactions_count :=
              sampleL2Counters.direct_interactions_count + 1 }) ∧
    (sampleL2NonEnth.knows_about_trend = false ∧
      sampleL2NonEnth.sport_enthusiast = false ∧ ¬ (3 : ℚ) < 2 ∧
      L2.spread_news_target 2 3 1 sampleL2NonEnth sampleL2Counters =
        (sampleL2NonEnth, sampleL2Counters)) ∧
    ((1 : ℚ) > 1/5 ∧
      ((L2.learn_about_trend sampleL2Uninformed true 1 sampleL2Counters).1).knows_about_trend = true) ∧
    (¬ (0 : ℚ) > 1/5 ∧
      (L2.learn_about_trend sampleL2Uninformed true 0 sampleL2Counters).2 =
        sampleL2Counters) := by
  refine ⟨⟨rfl, rfl, rfl, ?_⟩, ⟨rfl, rfl, rfl, ?_⟩, ⟨rfl, ?_⟩,
    ⟨rfl, Or.inl rfl, ?_⟩, ⟨rfl, rfl, by norm_num, ?_⟩,
    ⟨by norm_num, ?_⟩, ⟨by norm_num, ?_⟩⟩
  · exact claim_C6_amended.1 sampleHWOracle 0 sampleHWModelSusceptible
      sampleHWSusceptible 0 rfl rfl rfl
  · exact claim_C6_amended.2.1 sampleL2Oracle 0 sampleL2ModelUninformed
      sampleL2Uninformed 0 rfl rfl rfl
  · have h := claim_C6_amended.2.2.1 2 sampleHWSusceptible rfl
    rw [h]
    norm_num [sampleHWSusceptible]
  · exact claim_C6_amended.2.2.2.1 2 0 1 sampleL2Uninformed sampleL2Counters rfl
      (Or.inl rfl)
  · exact claim_C6_amended.2.2.2.2.1 2 3 1 sampleL2NonEnth sampleL2Counters rfl
      rfl (by norm_num)
  · exact (claim_C6_amended.2.2.2.2.2.1 sampleL2Uninformed 1 sampleL2Counters
      (by norm_num)).1
  · exact (claim_C6_amended.2.2.2.2.2.2 sampleL2Uninformed 0 sampleL2Counters
      (by norm_num)).2

/-- C8: every spatial operation of the cited variants (move, neighbour query,
infection-probability query, passive acquisition, transmit/spread) raises the
single "grid has not been initialized" error exactly when the agent's `cell`
reference is unset, and succeeds (the error is never raised) when it is set.
The check is the first statement of each operation, so an erroring call performs
no state mutation: the embedded operations return only the error value, and
the model-level wrappers propagate it unchanged. -/
theorem claim_C8_grid_error :
    (∀ a nbrs d r, a.cell = none → HW.move_around a nbrs d r =
      Except.error (gridError "The agent cannot move around the grid.")) ∧
    (∀ a nbrs d r c, a.cell = some c → ∃ a', HW.move_around a nbrs d r = Except.ok a') ∧
    (∀ a ncs, a.cell = none → HW.in_neighbourhood_of_infection a ncs =
      Except.error (gridError "The agent cannot check if neighbouring cells are infected")) ∧
    (∀ a ncs c, a.cell = some c → ∃ b, HW.in_neighbourhood_of_infection a ncs = Except.ok b) ∧
    (∀ a ci ni, a.cell = none → HW.get_infection_probabilty a ci ni =
      Except.error (gridError "The agent cannot get infection probability")) ∧
    (∀ a ci ni c, a.cell = some c → ∃ q, HW.get_infection_probabilty a ci ni = Except.ok q) ∧
    (∀ a ci ni d, a.cell = none → HW.get_infected_from_cell a ci ni d =
      Except.error (gridError "The agent cannot get infected from the cell.")) ∧
    (∀ a ci ni d c, a.cell = some c → ∃ r, HW.get_infected_from_cell a ci ni d = Except.ok r) ∧
    (∀ o i s self, s.agents.get? i = some self → self.cell = none →
      HW.spreadStep o i s = Except.error (gridError "The agent cannot spread the virus.")) ∧
    (∀ o i s self c, s.agents.get? i = some self → self.cell = some c →
      ∃ s', HW.spreadStep o i s = Except.ok s') ∧
    (∀ a nbrs r, a.cell = none → L2.move_around a nbrs r =
      Except.error (gridError "The agent cannot move around the grid.")) ∧
    (∀ a nbrs r c, a.cell = some c → ∃ a', L2.move_around a nbrs r = Except.ok a') ∧
    (∀ o i s self, s.agents.get? i = some self → self.cell = none →
      L2.spreadStep o i s = Except.error (gridError "The agent cannot spread the news.")) ∧
    (∀ o i s self c, s.agents.get? i = some self → self.cell = some c →
      ∃ s', L2.spreadStep o i s = Except.ok s') := by
  refine ⟨?_, ?_, ?_, ?_, ?_, ?_, ?_, ?_, ?_, ?_, ?_, ?_, ?_, ?_⟩
  · intro a nbrs d r h
    unfold HW.move_around
    simp only [h]
  · intro a nbrs d r c h
    unfold HW.move_around
    simp only [h]
    by_cases hd : d < a.moving_probability
    · exact ⟨_, by rw [if_pos hd]⟩
    · exact ⟨_, by rw [if_neg hd]⟩
  · intro a ncs h
    unfold HW.in_neighbourhood_of_infection
    simp only [h]
  · intro a ncs c h
    unfold HW.in_neighbourhood_of_infection
    simp only [h]
    exact ⟨_, rfl⟩
  · intro a ci ni h
    unfold HW.get_infection_probabilty
    simp only [h]
  · intro a ci ni c h
    unfold HW.get_infection_probabilty
    simp only [h]
    exact ⟨_, rfl⟩
  · intro a ci ni d h
    unfold HW.get_infected_from_cell
    simp only [h]
  · intro a ci ni d c h
    unfold HW.get_infected_from_cell
    simp only [h]
    split
    · exact ⟨_, rfl⟩
    · exact ⟨_, rfl⟩
  · intro o i s self hg hc
    unfold HW.spreadStep
    simp only [hg, hc]
  · intro o i s self c hg hc
    unfold HW.spreadStep
    simp only [hg, hc]
    split
    · exact ⟨_, rfl⟩
    · exact ⟨_, rfl⟩
  · intro a nbrs r h
    unfold L2.move_around
    simp only [h]
  · intro a nbrs r c h
    unfold L2.move_around
    simp only [h]
    exact ⟨_, rfl⟩
  · intro o i s self hg hc
    unfold L2.spreadStep
    simp only [hg, hc]
  · intro o i s self c hg hc
    unfold L2.spreadStep
    simp only [hg, hc]
    split
    · exact ⟨_, rfl⟩
    · exact ⟨_, rfl⟩

/-- C8, witness: the grid error on concrete unplaced agents and the absence
of the error on concrete placed agents. -/
theorem claim_C8_grid_error_witness :
    (sampleHWUnplaced.cell = none ∧
      HW.move_around sampleHWUnplaced sampleNbrs 0 0 =
        Except.error (gridError "The agent cannot move around the grid.")) ∧
    (sampleHW.cell = some 0 ∧
      ∃ a', HW.move_around sampleHW sampleNbrs 0 0 = Except.ok a') ∧
    (sampleHWUnplaced.cell = none ∧
      HW.get_infected_from_cell sampleHWUnplaced false false 0 =
        Except.error (gridError "The agent cannot get infected from the cell.")) ∧
    (sampleHW.cell = some 0 ∧
      ∃ r, HW.get_infected_from_cell sampleHW false false 0 = Except.ok r) ∧
    (sampleL2Unplaced.cell = none ∧
      L2.move_around sampleL2Unplaced sampleNbrs 0 =
        Except.error (gridError "The agent cannot move around the grid.")) ∧
    (sampleL2.cell = some 0 ∧
      ∃ a', L2.move_around sampleL2 sampleNbrs 0 = Except.ok a') ∧
    (sampleL2Model.agents.get? 0 = some sampleL2 ∧ sampleL2.cell = some 0 ∧
      ∃ s', L2.spreadStep sampleL2Oracle 0 sampleL2Model = Except.ok s') :=
  ⟨⟨rfl, claim_C8_grid_error.1 sampleHWUnplaced sampleNbrs 0 0 rfl⟩,
   ⟨rfl, claim_C8_grid_error.2.1 sampleHW sampleNbrs 0 0 0 rfl⟩,
   ⟨rfl, claim_C8_grid_error.2.2.2.2.2.2.1 sampleHWUnplaced false false 0 rfl⟩,
   ⟨rfl, claim_C8_grid_error.2.2.2.2.2.2.2.1 sampleHW false false 0 0 rfl⟩,
   ⟨rfl, claim_C8_grid_error.2.2.2.2.2.2.2.2.2.2.1 sampleL2Unplaced sampleNbrs 0 rfl⟩,
   ⟨rfl, claim_C8_grid_error.2.2.2.2.2.2.2.2.2.2.2.1 sampleL2 sampleNbrs 0 0 rfl⟩,
   ⟨rfl, rfl, claim_C8_grid_error.2.2.2.2.2.2.2.2.2.2.2.2.2 sampleL2Oracle 0
      sampleL2Model sampleL2 0 rfl rfl⟩⟩

/-- C2: in both models the step operation first checks whether any
not-yet-informed/infected agent remains.  If none does, it only sets
`running := false` and executes no agent behaviour that tick (the result
state is the input with just the flag cleared); otherwise, on every
successful tick, `running` is left unchanged — so the flag becomes `false`
exactly at the first tick whose start state has no uninformed/uninfected
agent, i.e. on the tick after the last one became informed/infected, never
earlier — and once `false` it never becomes `true` again. -/
theorem claim_C2_stop_condition :
    (∀ o s, HW.countUninfected s = 0 →
      HW.step o s = Except.ok { s with running := false }) ∧
    (∀ o s s', HW.step o s = Except.ok s' →
      s'.running = (if HW.countUninfected s = 0 then false else s.running)) ∧
    (∀ o s s', HW.step o s = Except.ok s' → s.running = false →
      s'.running = false) ∧
    (∀ o s, L2.countUninformed s = 0 →
      L2.step o s = Except.ok { s with running := false }) ∧
    (∀ o s s', L2.step o s = Except.ok s' →
      s'.running = (if L2.countUninformed s = 0 then false else s.running)) ∧
    (∀ o s s', L2.step o s = Except.ok s' → s.running = false →
      s'.running = false) := by
  refine ⟨?_, ?_, ?_, ?_, ?_, ?_⟩
  · exact fun o s h => HW.hw_step_stopped o s h
  · exact fun o s s' h => (HW.hw_step_ok h).1
  · intro o s s' h hr
    rw [(HW.hw_step_ok h).1]
    split
    · rfl
    · exact hr
  · exact fun o s h => L2.l2_step_stopped o s h
  · exact fun o s s' h => (L2.l2_step_ok h).1
  · intro o s s' h hr
    rw [(L2.l2_step_ok h).1]
    split
    · rfl
    · exact hr

/-- C2, witness: a fully infected/informed one-agent model stops on the next
step, the running flag follows the guard, and a stopped model stays
stopped. -/
theorem claim_C2_stop_condition_witness :
    (HW.countUninfected sampleHWModel = 0 ∧
      HW.step sampleHWOracle sampleHWModel =
        Except.ok { sampleHWModel with running := false }) ∧
    (HW.step sampleHWOracle sampleHWModel =
        Except.ok { sampleHWModel with running := false } ∧
      ({ sampleHWModel with running := false } : HW.Model).running =
        (if HW.countUninfected sampleHWModel = 0 then false
         else sampleHWModel.running)) ∧
    (HW.step sampleHWOracle sampleHWModelStopped =
        Except.ok { sampleHWModelStopped with running := false } ∧
      sampleHWModelStopped.running = false ∧
      ({ sampleHWModelStopped with running := false } : HW.Model).running = false) ∧
    (L2.countUninformed sampleL2Model = 0 ∧
      L2.step sampleL2Oracle sampleL2Model =
        Except.ok { sampleL2Model with running := false }) ∧
    (L2.step sampleL2Oracle sampleL2Model =
        Except.ok { sampleL2Model with running := false } ∧
      ({ sampleL2Model with running := false } : L2.Model).running =
        (if L2.countUninformed sampleL2Model = 0 then false
         else sampleL2Model.running)) ∧
    (L2.step sampleL2Oracle sampleL2ModelStopped =
        Except.ok { sampleL2ModelStopped with running := false } ∧
      sampleL2ModelStopped.running = false ∧
      ({ sampleL2ModelStopped with running := false } : L2.Model).running = false) :=
  ⟨⟨rfl, claim_C2_stop_condition.1 sampleHWOracle sampleHWModel rfl⟩,
   ⟨rfl, claim_C2_stop_condition.2.1 sampleHWOracle sampleHWModel
      { sampleHWModel with running := false } rfl⟩,
   ⟨rfl, rfl, claim_C2_stop_condition.2.2.1 sampleHWOracle sampleHWModelStopped
      { sampleHWModelStopped with running := false } rfl rfl⟩,
   ⟨rfl, claim_C2_stop_condition.2.2.2.1 sampleL2Oracle sampleL2Model rfl⟩,
   ⟨rfl, claim_C2_stop_condition.2.2.2.2.1 sampleL2Oracle sampleL2Model
      { sampleL2Model with running := false } rfl⟩,
   ⟨rfl, rfl, claim_C2_stop_condition.2.2.2.2.2 sampleL2Oracle sampleL2ModelStopped
      { sampleL2ModelStopped with running := false } rfl rfl⟩⟩

/-- C9, counterexample: in the trend variants the enthusiast/non-enthusiast
split of the population is drawn with `self.random.randint(1,
population_size)` at construction — two runs with the identical constructor
parameter `population_size = 5` but different draws produce different bucket
sizes (2 vs 4 sport enthusiasts), so the per-bucket counts are *not*
determined by the constructor parameters, contrary to the claim. -/
theorem claim_C9_cex :
    ((L2.generate_person_agents 5 1).filter (fun a => a.sport_enthusiast)).length = 2 ∧
    ((L2.generate_person_agents 5 3).filter (fun a => a.sport_enthusiast)).length = 4 ∧
    (2 : Nat) ≠ 4 := by
  exact ⟨rfl, rfl, by omega⟩

/-- C9, amended: all agents are created once at model construction and no
agent is added or removed during any tick (every successful step preserves
the number of agents).  The per-bucket counts are determined by the
constructor parameters only in the disease variant
(`infected_population_size` infected, `comorbidities_population_size`
comorbid, the remainder plain); in the trend variants the enthusiast bucket
holds `randint(1, population_size)` agents plus the pre-informed patient
zero, with the non-enthusiast bucket holding the rest, so those counts
depend on an RNG draw as well as the parameters. -/
theorem claim_C9_amended :
    (∀ ps ips cps mp,
      ((HW.generate_person_agents ps ips cps mp).filter
        (fun a => a.is_infected)).length = ips ∧
      ((HW.generate_person_agents ps ips cps mp).filter
        (fun a => a.has_comorbidities)).length = cps ∧
      (ips + cps ≤ ps → (HW.generate_person_agents ps ips cps mp).length = ps)) ∧
    (∀ ps d, ((L2.generate_person_agents ps d).filter
      (fun a => a.sport_enthusiast)).length = d + 1) ∧
    (∀ ps d, d ≤ ps → (L2.generate_person_agents ps d).length = ps + 1) ∧
    (∀ ps d, ((L1.generate_person_agents ps d).filter
      (fun a => a.sport_enthusiast)).length = d + 1) ∧
    (∀ ps d, d ≤ ps → (L1.generate_person_agents ps d).length = ps + 1) ∧
    (∀ o s s', HW.step o s = Except.ok s' → s'.agents.length = s.agents.length) ∧
    (∀ o s s', L2.step o s = Except.ok s' → s'.agents.length = s.agents.length) := by
  refine ⟨?_, ?_, ?_, ?_, ?_, ?_, ?_⟩
  · intro ps ips cps mp
    refine ⟨?_, ?_, ?_⟩
    · unfold HW.generate_person_agents
      simp [List.filter_append, length_filter_replicate]
    · unfold HW.generate_person_agents
      simp [List.filter_append, length_filter_replicate]
    · intro h
      unfold HW.generate_person_agents
      simp only [List.length_append, List.length_replicate]
      omega
  · intro ps d
    unfold L2.generate_person_agents
    simp [List.filter_append, length_filter_replicate]
  · intro ps d h
    unfold L2.generate_person_agents
    simp only [List.length_append, List.length_replicate, List.length_cons,
      List.length_nil]
    omega
  · intro ps d
    unfold L1.generate_person_agents
    simp [List.filter_append, length_filter_replicate]
  · intro ps d h
    unfold L1.generate_person_agents
    simp only [List.length_append, List.length_replicate, List.length_cons,
      List.length_nil]
    omega
  · exact fun o s s' h => (HW.hw_step_ok h).2
  · exact fun o s s' h => (L2.l2_step_ok h).2

/-- C9, witness: concrete bucket counts in each variant and a concrete step
preserving the one-agent population. -/
theorem claim_C9_amended_witness :
    ((1 : Nat) + 2 ≤ 5 ∧ (HW.generate_person_agents 5 1 2 2).length = 5) ∧
    ((1 : Nat) ≤ 5 ∧ (L2.generate_person_agents 5 1).length = 6) ∧
    ((1 : Nat) ≤ 5 ∧ (L1.generate_person_agents 5 1).length = 6) ∧
    (HW.step sampleHWOracle sampleHWModel =
        Except.ok { sampleHWModel with running := false } ∧
      ({ sampleHWModel with running := false } : HW.Model).agents.length =
        sampleHWModel.agents.length) ∧
    (L2.step sampleL2Oracle sampleL2Model =
        Except.ok { sampleL2Model with running := false } ∧
      ({ sampleL2Model with running := false } : L2.Model).agents.length =
        sampleL2Model.agents.length) :=
  ⟨⟨by omega, (claim_C9_amended.1 5 1 2 2).2.2 (by omega)⟩,
   ⟨by omega, claim_C9_amended.2.2.1 5 1 (by omega)⟩,
   ⟨by omega, claim_C9_amended.2.2.2.2.1 5 1 (by omega)⟩,
   ⟨rfl, claim_C9_amended.2.2.2.2.2.1 sampleHWOracle sampleHWModel
      { sampleHWModel with running := false } rfl⟩,
   ⟨rfl, claim_C9_amended.2.2.2.2.2.2 sampleL2Oracle sampleL2Model
      { sampleL2Model with running := false } rfl⟩⟩

end MesaLabs
